import Mathlib

/-!
Formal model of the triage / digest-assembly engine of the ACR intel agent,
embedded from `scripts/generate_digest.py` (function `build_digest`, lines
68-109).  Summaries arrive as loosely shaped records (every field may be
missing); `build_digest` normalizes them into fully-defaulted items, sorts
them by descending relevance score (Python's `list.sort` with `reverse=True`
is a stable sort; stable sorts are extensionally unique, so the structural
insertion sort below computes the same list), derives the day-relative
thresholds, partitions into three capped tiers, and applies the fallback
promotion for an empty critical tier.

Scores are integers (the spec's `relevance_score` is an integer in [0,100];
the defensive claims also cover out-of-range integers).  The Python float
expressions `max_score * 0.7` / `max_score * 0.4` are modelled exactly in ℚ
as `max_score * (7/10)` / `max_score * (4/10)`.
-/

namespace AcrDigest

open scoped List

/-- The related `items` record joined onto a summary row
(`item:items(id,title,url,published_at)`); only the fields `build_digest`
reads are modelled.  `none` models a missing/null field. -/
structure ItemRec where
  title : Option String
  url : Option String
deriving DecidableEq

/-- The supabase join can deliver the related record either as a single
object or as a list of objects; `build_digest` (lines 75-78) handles both. -/
inductive ItemField where
  | obj : ItemRec → ItemField
  | arr : List ItemRec → ItemField
deriving DecidableEq

/-- One row of the `summaries` query, as consumed by `build_digest`.
Every field may be absent (`none`). -/
structure Summary where
  summary : Option String
  why_it_matters : Option String
  category : Option String
  relevance_score : Option Int
  must_read : Option Bool
  item : Option ItemField
deriving DecidableEq

/-- The normalized dict appended to `items` at lines 80-88. -/
structure DigestItem where
  title : String
  url : String
  summary : String
  why_it_matters : String
  category : String
  relevance_score : Int
  must_read : Bool
deriving DecidableEq

/-- The value returned by `build_digest` (lines 105-109). -/
structure DigestContent where
  must_know : List DigestItem
  worth_a_look : List DigestItem
  quick_hits : List DigestItem
deriving DecidableEq

/-- Lines 72-78: skip a summary whose `item` is missing; a falsy value
(`None`, empty list) is skipped, a one-or-more element list is replaced by
its first element. -/
def extractItem (s : Summary) : Option ItemRec :=
  match s.item with
  | none => none
  | some (.obj r) => some r
  | some (.arr []) => none
  | some (.arr (r :: _)) => some r

/-- Lines 80-88: build the normalized item dict, substituting defaults for
missing fields. -/
def normalizeSummary (s : Summary) : Option DigestItem :=
  match extractItem s with
  | none => none
  | some it =>
      some
        { title := it.title.getD "Untitled"
          url := it.url.getD ""
          summary := s.summary.getD ""
          why_it_matters := s.why_it_matters.getD ""
          category := s.category.getD "sar"
          relevance_score := s.relevance_score.getD 0
          must_read := s.must_read.getD false }

/-- The `items` list of line 70-88. -/
def itemsOf (pool : List Summary) : List DigestItem :=
  pool.filterMap normalizeSummary

/-- Insert an item into a list so that, when the tail is sorted by
non-increasing score, the result is sorted by non-increasing score and the
inserted item comes before items of equal score (the inserted item is the
earlier one in input order). -/
def insertDesc (a : DigestItem) : List DigestItem → List DigestItem
  | [] => [a]
  | b :: l =>
      if b.relevance_score ≤ a.relevance_score then a :: b :: l
      else b :: insertDesc a l

/-- Line 90: `items.sort(key=lambda x: x['relevance_score'], reverse=True)`.
Python's sort is stable; a stable sort is extensionally determined by the
key order, and this insertion sort is stable for the descending key order. -/
def sortItems : List DigestItem → List DigestItem
  | [] => []
  | a :: l => insertDesc a (sortItems l)

/-- Lines 92-93: `scores = [i['relevance_score'] for i in items]` and
`max_score = max(scores) if scores else 0`, over the (sorted) items list;
Python's `max` of a non-empty list is a left fold of binary `max` over it. -/
def max_score (l : List DigestItem) : Int :=
  match sortItems l with
  | [] => 0
  | a :: rest => rest.foldl (fun m i => max m i.relevance_score) a.relevance_score

/-- Line 94: `high_threshold = max(max_score * 0.7, 60)`. -/
def high_threshold (l : List DigestItem) : ℚ :=
  max ((max_score l : ℚ) * (7 / 10)) 60

/-- Line 95: `mid_threshold = max(max_score * 0.4, 30)`. -/
def mid_threshold (l : List DigestItem) : ℚ :=
  max ((max_score l : ℚ) * (4 / 10)) 30

/-- Line 97 filter: `i['must_read'] or i['relevance_score'] >= high_threshold`. -/
def criticalPred (high : ℚ) (i : DigestItem) : Bool :=
  i.must_read || decide (high ≤ (i.relevance_score : ℚ))

/-- Line 98 filter:
`not i['must_read'] and mid_threshold <= i['relevance_score'] < high_threshold`. -/
def notablePred (mid high : ℚ) (i : DigestItem) : Bool :=
  !i.must_read && decide (mid ≤ (i.relevance_score : ℚ))
    && decide ((i.relevance_score : ℚ) < high)

/-- Line 99 filter: `0 < i['relevance_score'] < mid_threshold`.
Note: unlike line 98, this filter does not exclude `must_read` items. -/
def minorPred (mid : ℚ) (i : DigestItem) : Bool :=
  decide ((0 : ℚ) < (i.relevance_score : ℚ)) && decide ((i.relevance_score : ℚ) < mid)

/-- Candidates of line 97, before the `[:3]` truncation. -/
def must_know_cands (l : List DigestItem) : List DigestItem :=
  (sortItems l).filter (criticalPred (high_threshold l))

/-- Candidates of line 98, before the `[:7]` truncation. -/
def worth_cands (l : List DigestItem) : List DigestItem :=
  (sortItems l).filter (notablePred (mid_threshold l) (high_threshold l))

/-- Candidates of line 99, before the `[:10]` truncation. -/
def quick_cands (l : List DigestItem) : List DigestItem :=
  (sortItems l).filter (minorPred (mid_threshold l))

/-- Line 97: `must_know = [...][:3]`. -/
def must_know0 (l : List DigestItem) : List DigestItem :=
  (must_know_cands l).take 3

/-- Line 98: `worth_a_look = [...][:7]`. -/
def worth0 (l : List DigestItem) : List DigestItem :=
  (worth_cands l).take 7

/-- Line 99: `quick_hits = [...][:10]`. -/
def quick0 (l : List DigestItem) : List DigestItem :=
  (quick_cands l).take 10

/-- Lines 90-109 of `build_digest`, operating on the normalized items list:
partition, truncate, and apply the fallback of lines 101-103
(`if not must_know and worth_a_look`). -/
def assembleItems (l : List DigestItem) : DigestContent :=
  if must_know0 l = [] ∧ worth0 l ≠ [] then
    { must_know := (worth0 l).take 2
      worth_a_look := (worth0 l).drop 2
      quick_hits := quick0 l }
  else
    { must_know := must_know0 l
      worth_a_look := worth0 l
      quick_hits := quick0 l }

/-- `build_digest(summaries)`, lines 68-109. -/
def build_digest (pool : List Summary) : DigestContent :=
  assembleItems (itemsOf pool)

/-- Ordering relation of the tiers: the second item scores no more than the
first. -/
def scoreDesc (p q : DigestItem) : Prop :=
  q.relevance_score ≤ p.relevance_score

/-- Modelled from the spec: the defensive clamping that §4.1/§7 require of
the engine for out-of-range scores (`min(100, max(0, score))` applied to
every score of the pool, a missing score counting as 0).  No such clamping
exists in `build_digest`; this definition is used only to compare the code's
behaviour with the spec's words. -/
def specClampSummary (s : Summary) : Summary :=
  { s with relevance_score := some (min 100 (max 0 (s.relevance_score.getD 0))) }

/-- Replace a missing `relevance_score` by an explicit 0, leaving everything
else unchanged. -/
def fillMissingScore (s : Summary) : Summary :=
  { s with relevance_score := some (s.relevance_score.getD 0) }

/-- A summary with only the scoring fields populated; the `item` record is
present with no title/url. -/
def mkSummary (score : Int) (mr : Bool) : Summary :=
  { summary := none, why_it_matters := none, category := none,
    relevance_score := some score, must_read := some mr,
    item := some (.obj { title := none, url := none }) }

/-- The normalized item `mkSummary score mr` turns into. -/
def mkItem (score : Int) (mr : Bool) : DigestItem :=
  { title := "Untitled", url := "", summary := "", why_it_matters := "",
    category := "sar", relevance_score := score, must_read := mr }

/-- A summary row with every field missing; in particular it lacks an item
record. -/
def noItemSummary : Summary :=
  { summary := none, why_it_matters := none, category := none,
    relevance_score := none, must_read := none, item := none }

/-! ### Lemmas about the stable descending sort -/

theorem mem_insertDesc {a x : DigestItem} :
    ∀ {l : List DigestItem}, x ∈ insertDesc a l ↔ x = a ∨ x ∈ l
  | [] => by simp [insertDesc]
  | b :: l => by
    by_cases h : b.relevance_score ≤ a.relevance_score
    · simp [insertDesc, h]
    · simp only [insertDesc, if_neg h, List.mem_cons, mem_insertDesc (l := l)]
      tauto

theorem mem_sortItems {x : DigestItem} :
    ∀ {l : List DigestItem}, x ∈ sortItems l ↔ x ∈ l
  | [] => Iff.rfl
  | a :: l => by
    simp [sortItems, mem_insertDesc, mem_sortItems (l := l)]

theorem pairwise_insertDesc {a : DigestItem} :
    ∀ {l : List DigestItem}, l.Pairwise scoreDesc →
      (insertDesc a l).Pairwise scoreDesc
  | [], _ => List.pairwise_singleton _ _
  | b :: l, h => by
    rcases List.pairwise_cons.mp h with ⟨hb, hl⟩
    by_cases hle : b.relevance_score ≤ a.relevance_score
    · rw [insertDesc, if_pos hle]
      refine List.pairwise_cons.mpr ⟨?_, h⟩
      intro x hx
      rcases List.mem_cons.mp hx with rfl | hx
      · exact hle
      · exact le_trans (hb x hx) hle
    · rw [insertDesc, if_neg hle]
      refine List.pairwise_cons.mpr ⟨?_, pairwise_insertDesc hl⟩
      intro x hx
      rcases mem_insertDesc.mp hx with rfl | hx
      · exact le_of_lt (lt_of_not_le hle)
      · exact hb x hx

theorem sortItems_pairwise : ∀ l : List DigestItem, (sortItems l).Pairwise scoreDesc
  | [] => List.Pairwise.nil
  | _ :: l => pairwise_insertDesc (sortItems_pairwise l)

/-- Stability of the insertion step: filtering to one score value, inserting
`a` either prepends `a` to the filtered list (when `a` has that score) or
leaves it unchanged — `a` never jumps past an equal-scoring element. -/
theorem filter_insertDesc (s : Int) (a : DigestItem) :
    ∀ l : List DigestItem,
      (insertDesc a l).filter (fun i => decide (i.relevance_score = s)) =
        if a.relevance_score = s then
          a :: l.filter (fun i => decide (i.relevance_score = s))
        else l.filter (fun i => decide (i.relevance_score = s))
  | [] => by
    by_cases h : a.relevance_score = s <;> simp [insertDesc, h]
  | b :: l => by
    by_cases hle : b.relevance_score ≤ a.relevance_score
    · rw [insertDesc, if_pos hle]
      by_cases ha : a.relevance_score = s <;>
        by_cases hb : b.relevance_score = s <;>
          simp [List.filter_cons, ha, hb]
    · have hlt : a.relevance_score < b.relevance_score := lt_of_not_le hle
      rw [insertDesc, if_neg hle]
      by_cases ha : a.relevance_score = s
      · have hb : ¬ b.relevance_score = s := by
          intro hbs; exact absurd (hbs.trans ha.symm) (ne_of_gt hlt)
        simp [List.filter_cons, hb, filter_insertDesc s a l, ha]
      · by_cases hb : b.relevance_score = s <;>
          simp [List.filter_cons, hb, filter_insertDesc s a l, ha]

/-- Stability of the sort: the items of any one score value appear in the
sorted list exactly in their input order. -/
theorem filter_sortItems (s : Int) :
    ∀ l : List DigestItem,
      (sortItems l).filter (fun i => decide (i.relevance_score = s)) =
        l.filter (fun i => decide (i.relevance_score = s))
  | [] => rfl
  | a :: l => by
    rw [sortItems, filter_insertDesc s a (sortItems l), filter_sortItems s l]
    by_cases ha : a.relevance_score = s <;> simp [List.filter_cons, ha]

/-! ### Lemmas about `max_score` and the thresholds -/

theorem le_foldl_max :
    ∀ (l : List DigestItem) (q : Int),
      q ≤ l.foldl (fun m i => max m i.relevance_score) q
  | [], q => le_refl q
  | b :: l, q =>
    le_trans (le_max_left q b.relevance_score) (le_foldl_max l _)

theorem score_le_foldl_max :
    ∀ (l : List DigestItem) (q : Int) {x : DigestItem}, x ∈ l →
      x.relevance_score ≤ l.foldl (fun m i => max m i.relevance_score) q
  | b :: l, q, x, hx => by
    rcases List.mem_cons.mp hx with rfl | hx
    · exact le_trans (le_max_right q x.relevance_score) (le_foldl_max l _)
    · exact score_le_foldl_max l _ hx

theorem foldl_max_cases :
    ∀ (l : List DigestItem) (q : Int),
      l.foldl (fun m i => max m i.relevance_score) q = q ∨
        ∃ x ∈ l, l.foldl (fun m i => max m i.relevance_score) q = x.relevance_score
  | [], q => Or.inl rfl
  | b :: l, q => by
    rcases foldl_max_cases l (max q b.relevance_score) with h | ⟨x, hx, h⟩
    · rcases le_total q b.relevance_score with hq | hq
      · exact Or.inr ⟨b, List.mem_cons_self b l, by rw [List.foldl_cons, h, max_eq_right hq]⟩
      · exact Or.inl (by rw [List.foldl_cons, h, max_eq_left hq])
    · exact Or.inr ⟨x, List.mem_cons_of_mem b hx, by rw [List.foldl_cons, h]⟩

/-- `max_score` bounds every item of the pool. -/
theorem score_le_max_score {l : List DigestItem} {x : DigestItem}
    (hx : x ∈ l) : x.relevance_score ≤ max_score l := by
  rw [max_score]
  rcases hs : sortItems l with _ | ⟨a, rest⟩
  · exact absurd (mem_sortItems.mpr hx) (by simp [hs])
  · have hx' : x ∈ a :: rest := hs ▸ mem_sortItems.mpr hx
    rcases List.mem_cons.mp hx' with rfl | hx'
    · exact le_foldl_max rest _
    · exact score_le_foldl_max rest _ hx'

/-- On a non-empty pool, `max_score` is attained by some item. -/
theorem max_score_mem {l : List DigestItem} (hl : l ≠ []) :
    ∃ x ∈ l, max_score l = x.relevance_score := by
  rw [max_score]
  rcases hs : sortItems l with _ | ⟨a, rest⟩
  · rcases List.exists_mem_of_ne_nil l hl with ⟨x, hx⟩
    exact absurd (mem_sortItems.mpr hx) (by simp [hs])
  · rcases foldl_max_cases rest a.relevance_score with h | ⟨x, hx, h⟩
    · exact ⟨a, mem_sortItems.mp (by rw [hs]; exact List.mem_cons_self a rest), h⟩
    · exact ⟨x, mem_sortItems.mp (by rw [hs]; exact List.mem_cons_of_mem a hx), h⟩

/-- On an empty pool, `max_score` is 0. -/
theorem max_score_nil : max_score [] = 0 := rfl

theorem sixty_le_high_threshold (l : List DigestItem) :
    (60 : ℚ) ≤ high_threshold l :=
  le_max_right _ _

theorem thirty_le_mid_threshold (l : List DigestItem) :
    (30 : ℚ) ≤ mid_threshold l :=
  le_max_right _ _

theorem mid_threshold_le_high_threshold (l : List DigestItem) :
    mid_threshold l ≤ high_threshold l := by
  rw [mid_threshold, high_threshold]
  apply max_le
  · rcases le_total 0 ((max_score l : ℚ)) with hm | hm
    · exact le_trans (by nlinarith) (le_max_left _ _)
    · exact le_trans (by nlinarith) (le_max_right _ _)
  · exact le_trans (by norm_num) (le_max_right _ _)

/-! ### Which candidate list each output tier comes from -/

theorem must_know0_sublist (l : List DigestItem) :
    must_know0 l <+ must_know_cands l :=
  List.take_sublist 3 _

theorem worth0_sublist (l : List DigestItem) :
    worth0 l <+ worth_cands l :=
  List.take_sublist 7 _

theorem quick0_sublist (l : List DigestItem) :
    quick0 l <+ quick_cands l :=
  List.take_sublist 10 _

/-- `assembleItems` either returns the three truncated candidate lists, or
(fallback, lines 101-103) splits the notable tier in two. -/
theorem assembleItems_cases (l : List DigestItem) :
    (¬ (must_know0 l = [] ∧ worth0 l ≠ []) ∧
      assembleItems l =
        { must_know := must_know0 l, worth_a_look := worth0 l,
          quick_hits := quick0 l }) ∨
    (must_know0 l = [] ∧ worth0 l ≠ [] ∧
      assembleItems l =
        { must_know := (worth0 l).take 2, worth_a_look := (worth0 l).drop 2,
          quick_hits := quick0 l }) := by
  by_cases h : must_know0 l = [] ∧ worth0 l ≠ []
  · exact Or.inr ⟨h.1, h.2, by rw [assembleItems, if_pos h]⟩
  · exact Or.inl ⟨h, by rw [assembleItems, if_neg h]⟩

theorem must_know_tier_sublist (l : List DigestItem) :
    (assembleItems l).must_know <+ must_know_cands l ∨
      (assembleItems l).must_know <+ worth_cands l := by
  rcases assembleItems_cases l with ⟨_, h⟩ | ⟨_, _, h⟩
  · exact Or.inl (by rw [h]; exact must_know0_sublist l)
  · exact Or.inr (by
      rw [h]
      exact ((List.take_sublist 2 _).trans (worth0_sublist l)))

theorem worth_tier_sublist (l : List DigestItem) :
    (assembleItems l).worth_a_look <+ worth_cands l := by
  rcases assembleItems_cases l with ⟨_, h⟩ | ⟨_, _, h⟩
  · rw [h]; exact worth0_sublist l
  · rw [h]; exact (List.drop_sublist 2 _).trans (worth0_sublist l)

theorem quick_tier_sublist (l : List DigestItem) :
    (assembleItems l).quick_hits <+ quick_cands l := by
  rcases assembleItems_cases l with ⟨_, h⟩ | ⟨_, _, h⟩ <;>
    (rw [h]; exact quick0_sublist l)

/-- Anything that is, as a list, part of one of the three filtered candidate
lists is sorted by non-increasing score and, within one score value,
preserves the input order of the unsorted items list. -/
theorem cand_tier_props {l : List DigestItem} {p : DigestItem → Bool}
    {t : List DigestItem} (h : t <+ (sortItems l).filter p) :
    t.Pairwise scoreDesc ∧
      ∀ s : Int,
        t.filter (fun i => decide (i.relevance_score = s)) <+
          l.filter (fun i => decide (i.relevance_score = s)) := by
  constructor
  · exact ((sortItems_pairwise l).filter p).sublist h
  · intro s
    have h1 : t.filter (fun i => decide (i.relevance_score = s)) <+
        ((sortItems l).filter p).filter (fun i => decide (i.relevance_score = s)) :=
      h.filter _
    have h2 : ((sortItems l).filter p).filter (fun i => decide (i.relevance_score = s)) =
        ((sortItems l).filter (fun i => decide (i.relevance_score = s))).filter p := by
      rw [List.filter_filter, List.filter_filter]
      exact List.filter_congr (fun a _ => Bool.and_comm _ _)
    have h3 : ((sortItems l).filter (fun i => decide (i.relevance_score = s))).filter p <+
        l.filter (fun i => decide (i.relevance_score = s)) := by
      rw [filter_sortItems s l] at *
      exact List.filter_sublist _
    calc t.filter (fun i => decide (i.relevance_score = s)) <+
        ((sortItems l).filter p).filter (fun i => decide (i.relevance_score = s)) := h1
      _ = ((sortItems l).filter (fun i => decide (i.relevance_score = s))).filter p := h2
      _ <+ l.filter (fun i => decide (i.relevance_score = s)) := h3

/-! ### Unfolding the tier predicates -/

theorem criticalPred_iff {high : ℚ} {i : DigestItem} :
    criticalPred high i = true ↔
      i.must_read = true ∨ high ≤ (i.relevance_score : ℚ) := by
  simp [criticalPred]

theorem notablePred_iff {mid high : ℚ} {i : DigestItem} :
    notablePred mid high i = true ↔
      i.must_read = false ∧ mid ≤ (i.relevance_score : ℚ) ∧
        (i.relevance_score : ℚ) < high := by
  simp [notablePred, and_assoc]

theorem minorPred_iff {mid : ℚ} {i : DigestItem} :
    minorPred mid i = true ↔
      (0 : ℚ) < (i.relevance_score : ℚ) ∧ (i.relevance_score : ℚ) < mid := by
  simp [minorPred]

/-! ### Membership in the output tiers -/

theorem mem_must_know_tier {l : List DigestItem} {x : DigestItem}
    (hx : x ∈ (assembleItems l).must_know) :
    x ∈ must_know_cands l ∨ x ∈ worth_cands l := by
  rcases must_know_tier_sublist l with h | h
  · exact Or.inl (h.subset hx)
  · exact Or.inr (h.subset hx)

theorem mem_worth_tier {l : List DigestItem} {x : DigestItem}
    (hx : x ∈ (assembleItems l).worth_a_look) : x ∈ worth_cands l :=
  (worth_tier_sublist l).subset hx

theorem mem_quick_tier {l : List DigestItem} {x : DigestItem}
    (hx : x ∈ (assembleItems l).quick_hits) : x ∈ quick_cands l :=
  (quick_tier_sublist l).subset hx

/-- In a list sorted by non-increasing score, every element dropped by a
truncation scores at most every element kept by it. -/
theorem take_dominates {l : List DigestItem} (h : l.Pairwise scoreDesc)
    (n : Nat) :
    ∀ y ∈ l.take n, ∀ x ∈ l.drop n, x.relevance_score ≤ y.relevance_score := by
  have happ : (l.take n ++ l.drop n).Pairwise scoreDesc := by
    rw [List.take_append_drop]; exact h
  have h3 := (List.pairwise_append.mp happ).2.2
  intro y hy x hx
  exact h3 y hy x hx

/-! ### Claim theorems -/

/-- C4 (counterexample): the claim says an item with `relevance_score = 0`
appears in no tier regardless of its `must_read` flag; but on the pool with
a single must-read item of score 0 the item appears in the critical tier
(the line-97 filter admits every must-read item, whatever its score). -/
theorem C4_zero_score_must_read_in_critical :
    (mkItem 0 true).relevance_score = 0 ∧
      mkItem 0 true ∈ (build_digest [mkSummary 0 true]).must_know := by
  constructor
  · rfl
  · norm_num [build_digest, assembleItems, must_know0, worth0, quick0,
      must_know_cands, worth_cands, quick_cands, high_threshold, mid_threshold,
      max_score, sortItems, insertDesc, itemsOf, normalizeSummary, extractItem,
      criticalPred, notablePred, minorPred, mkSummary, mkItem]

/-- C4 (amended): an item with `relevance_score = 0` and `must_read = false`
appears in none of the three tiers of `build_digest`'s output. -/
theorem C4_zero_score_excluded (pool : List Summary) (i : DigestItem)
    (hscore : i.relevance_score = 0) (hmr : i.must_read = false) :
    i ∉ (build_digest pool).must_know ∧
      i ∉ (build_digest pool).worth_a_look ∧
      i ∉ (build_digest pool).quick_hits := by
  have hq : (i.relevance_score : ℚ) = 0 := by rw [hscore]; norm_num
  have hnc : i ∉ must_know_cands (itemsOf pool) := by
    intro hmem
    have hp := (List.mem_filter.mp hmem).2
    rcases criticalPred_iff.mp hp with h | h
    · rw [hmr] at h; exact Bool.false_ne_true h
    · rw [hq] at h
      have := sixty_le_high_threshold (itemsOf pool)
      linarith
  have hnw : i ∉ worth_cands (itemsOf pool) := by
    intro hmem
    have hp := (notablePred_iff.mp (List.mem_filter.mp hmem).2).2.1
    rw [hq] at hp
    have := thirty_le_mid_threshold (itemsOf pool)
    linarith
  have hnq : i ∉ quick_cands (itemsOf pool) := by
    intro hmem
    have hp := (minorPred_iff.mp (List.mem_filter.mp hmem).2).1
    rw [hq] at hp
    exact lt_irrefl 0 hp
  refine ⟨fun h => ?_, fun h => hnw (mem_worth_tier h), fun h => hnq (mem_quick_tier h)⟩
  rcases mem_must_know_tier h with h' | h'
  · exact hnc h'
  · exact hnw h'

/-- C4 witness: on the pool with one non-must-read item of score 0, the
amended theorem applies and the item is in no tier. -/
theorem C4_zero_score_excluded_witness :
    mkItem 0 false ∉ (build_digest [mkSummary 0 false]).must_know ∧
      mkItem 0 false ∉ (build_digest [mkSummary 0 false]).worth_a_look ∧
      mkItem 0 false ∉ (build_digest [mkSummary 0 false]).quick_hits :=
  C4_zero_score_excluded [mkSummary 0 false] (mkItem 0 false) rfl rfl

/-- C10: a non-must-read item at or above the high threshold that is not
among the 3 highest-scoring critical candidates appears in no tier of the
output: the notable filter requires `score < high_threshold`, the minor
filter requires `score < mid_threshold ≤ high_threshold`, and the fallback
cannot fire because the critical candidate list is non-empty. -/
theorem C10_overflow_dropped (pool : List Summary) (i : DigestItem)
    (hmem : i ∈ itemsOf pool) (_hmr : i.must_read = false)
    (hhigh : high_threshold (itemsOf pool) ≤ (i.relevance_score : ℚ))
    (hout : i ∉ must_know0 (itemsOf pool)) :
    i ∉ (build_digest pool).must_know ∧
      i ∉ (build_digest pool).worth_a_look ∧
      i ∉ (build_digest pool).quick_hits := by
  have hcand : i ∈ must_know_cands (itemsOf pool) :=
    List.mem_filter.mpr ⟨mem_sortItems.mpr hmem, criticalPred_iff.mpr (Or.inr hhigh)⟩
  have hne : must_know0 (itemsOf pool) ≠ [] := by
    rw [must_know0]
    intro h
    rcases List.take_eq_nil_iff.mp h with h3 | hnil
    · exact absurd h3 (by norm_num)
    · rw [hnil] at hcand
      exact List.not_mem_nil i hcand
  have hnw : i ∉ worth_cands (itemsOf pool) := by
    intro hmem'
    have hp := (notablePred_iff.mp (List.mem_filter.mp hmem').2).2.2
    linarith
  have hnq : i ∉ quick_cands (itemsOf pool) := by
    intro hmem'
    have hp := (minorPred_iff.mp (List.mem_filter.mp hmem').2).2
    have := mid_threshold_le_high_threshold (itemsOf pool)
    linarith
  refine ⟨fun h => ?_, fun h => hnw (mem_worth_tier h), fun h => hnq (mem_quick_tier h)⟩
  rcases assembleItems_cases (itemsOf pool) with ⟨_, heq⟩ | ⟨h0, _, _⟩
  · rw [build_digest, heq] at h
    exact hout h
  · exact hne h0

/-- C10 witness: with three items of score 100 and one of score 90, the high
threshold is 70, all four are critical candidates, and the score-90 item
(outside the top 3) appears in no tier. -/
theorem C10_overflow_dropped_witness :
    mkItem 90 false ∉
        (build_digest [mkSummary 100 false, mkSummary 100 false,
          mkSummary 100 false, mkSummary 90 false]).must_know ∧
      mkItem 90 false ∉
        (build_digest [mkSummary 100 false, mkSummary 100 false,
          mkSummary 100 false, mkSummary 90 false]).worth_a_look ∧
      mkItem 90 false ∉
        (build_digest [mkSummary 100 false, mkSummary 100 false,
          mkSummary 100 false, mkSummary 90 false]).quick_hits :=
  C10_overflow_dropped
    [mkSummary 100 false, mkSummary 100 false, mkSummary 100 false,
      mkSummary 90 false]
    (mkItem 90 false)
    (by norm_num [itemsOf, normalizeSummary, extractItem, mkSummary, mkItem])
    rfl
    (by norm_num [itemsOf, normalizeSummary, extractItem, high_threshold,
      max_score, sortItems, insertDesc, mkSummary, mkItem])
    (by norm_num [must_know0, must_know_cands, itemsOf, normalizeSummary,
      extractItem, high_threshold, max_score, sortItems, insertDesc,
      criticalPred, mkSummary, mkItem])

/-- C3 (counterexample): a pool with a single must-read item (score 10) and
three non-must-read items of score 100 has at most 3 must-read items, yet
the must-read item with positive score is not in the critical tier: the
line-97 candidate list contains all four items and its `[:3]` truncation
keeps the three higher-scoring non-must-read items. -/
theorem C3_must_read_displaced :
    (itemsOf [mkSummary 100 false, mkSummary 100 false, mkSummary 100 false,
        mkSummary 10 true]).countP (fun i => i.must_read) = 1 ∧
      mkItem 10 true ∈ itemsOf [mkSummary 100 false, mkSummary 100 false,
        mkSummary 100 false, mkSummary 10 true] ∧
      (mkItem 10 true).must_read = true ∧
      0 < (mkItem 10 true).relevance_score ∧
      mkItem 10 true ∉
        (build_digest [mkSummary 100 false, mkSummary 100 false,
          mkSummary 100 false, mkSummary 10 true]).must_know := by
  refine ⟨?_, ?_, rfl, by norm_num [mkItem], ?_⟩
  · norm_num [itemsOf, normalizeSummary, extractItem, mkSummary, mkItem,
      List.filterMap_cons, List.countP_cons]
  · norm_num [itemsOf, normalizeSummary, extractItem, mkSummary, mkItem]
  · norm_num [build_digest, assembleItems, must_know0, worth0, quick0,
      must_know_cands, worth_cands, quick_cands, high_threshold, mid_threshold,
      max_score, sortItems, insertDesc, itemsOf, normalizeSummary, extractItem,
      criticalPred, notablePred, minorPred, mkSummary, mkItem]

/-- C3 (amended): every must-read item of the pool is a critical candidate,
and whenever the candidate list is non-empty the critical tier is exactly its
3 highest-scoring candidates (the `[:3]` cut of the descending-sorted
candidate list); a must-read item is elevated exactly when it is among those
top 3, and non-must-read items at or above the high threshold compete for
the same slots. -/
theorem C3_top3_candidates (pool : List Summary) :
    (∀ i ∈ itemsOf pool, i.must_read = true →
        i ∈ must_know_cands (itemsOf pool)) ∧
      (must_know_cands (itemsOf pool) ≠ [] →
        (build_digest pool).must_know =
          (must_know_cands (itemsOf pool)).take 3) := by
  constructor
  · intro i hi hmr
    exact List.mem_filter.mpr
      ⟨mem_sortItems.mpr hi, criticalPred_iff.mpr (Or.inl hmr)⟩
  · intro hne
    have h0 : must_know0 (itemsOf pool) ≠ [] := by
      rw [must_know0]
      intro h
      rcases List.take_eq_nil_iff.mp h with h3 | hnil
      · exact absurd h3 (by norm_num)
      · exact hne hnil
    rcases assembleItems_cases (itemsOf pool) with ⟨_, heq⟩ | ⟨hmk, _, _⟩
    · rw [build_digest, heq]
      rfl
    · exact absurd hmk h0

/-- C3 witness: on the pool with one must-read item of score 50, the item is
a critical candidate and the critical tier is the top-3 cut of the candidate
list. -/
theorem C3_top3_candidates_witness :
    mkItem 50 true ∈ must_know_cands (itemsOf [mkSummary 50 true]) ∧
      (build_digest [mkSummary 50 true]).must_know =
        (must_know_cands (itemsOf [mkSummary 50 true])).take 3 := by
  have h := C3_top3_candidates [mkSummary 50 true]
  refine ⟨h.1 (mkItem 50 true) ?_ rfl, h.2 ?_⟩
  · norm_num [itemsOf, normalizeSummary, extractItem, mkSummary, mkItem]
  · norm_num [must_know_cands, itemsOf, normalizeSummary, extractItem,
      high_threshold, max_score, sortItems, insertDesc, criticalPred,
      mkSummary, mkItem]

/-- C5: the thresholds are exactly `max(max_score * 0.7, 60)` and
`max(max_score * 0.4, 30)` where `max_score` bounds every pool item, is
attained on a non-empty pool, and is 0 on an empty pool; and when every
score is below 60 the high threshold is exactly the floor 60. -/
theorem C5_thresholds (pool : List Summary) :
    high_threshold (itemsOf pool) =
        max ((max_score (itemsOf pool) : ℚ) * (7 / 10)) 60 ∧
      mid_threshold (itemsOf pool) =
        max ((max_score (itemsOf pool) : ℚ) * (4 / 10)) 30 ∧
      (∀ i ∈ itemsOf pool, i.relevance_score ≤ max_score (itemsOf pool)) ∧
      (itemsOf pool = [] → max_score (itemsOf pool) = 0) ∧
      (itemsOf pool ≠ [] →
        ∃ i ∈ itemsOf pool, max_score (itemsOf pool) = i.relevance_score) ∧
      ((∀ i ∈ itemsOf pool, i.relevance_score < 60) →
        high_threshold (itemsOf pool) = 60) := by
  refine ⟨rfl, rfl, fun i hi => score_le_max_score hi, ?_, max_score_mem, ?_⟩
  · intro h
    rw [h]
    rfl
  · intro hall
    have hle : (max_score (itemsOf pool) : ℚ) * (7 / 10) ≤ 60 := by
      by_cases hnil : itemsOf pool = []
      · rw [hnil, max_score_nil]
        norm_num
      · rcases max_score_mem hnil with ⟨i, hi, heq⟩
        have hlt : max_score (itemsOf pool) < 60 := heq ▸ hall i hi
        have hltq : (max_score (itemsOf pool) : ℚ) < 60 := by exact_mod_cast hlt
        nlinarith
    rw [high_threshold, max_eq_right hle]

/-- C5 witness: on a pool whose only item scores 50 (below 60), the high
threshold is exactly 60. -/
theorem C5_thresholds_witness :
    high_threshold (itemsOf [mkSummary 50 false]) = 60 :=
  (C5_thresholds [mkSummary 50 false]).2.2.2.2.2
    (by norm_num [itemsOf, normalizeSummary, extractItem, mkSummary, mkItem])

/-- C6: when the truncated critical tier is empty and the truncated notable
tier is not, the fallback promotes the top 2 notable items into critical
(removing them from notable), so critical is non-empty; when the notable
tier is also empty the fallback does not fire and the critical and notable
tiers of the output are empty. -/
theorem C6_fallback (pool : List Summary) :
    (must_know0 (itemsOf pool) = [] → worth0 (itemsOf pool) ≠ [] →
        (build_digest pool).must_know = (worth0 (itemsOf pool)).take 2 ∧
          (build_digest pool).worth_a_look = (worth0 (itemsOf pool)).drop 2 ∧
          (build_digest pool).must_know ≠ []) ∧
      (must_know0 (itemsOf pool) = [] → worth0 (itemsOf pool) = [] →
        (build_digest pool).must_know = [] ∧
          (build_digest pool).worth_a_look = []) := by
  constructor
  · intro hmk hw
    have hcond : must_know0 (itemsOf pool) = [] ∧ worth0 (itemsOf pool) ≠ [] :=
      ⟨hmk, hw⟩
    have heq : build_digest pool =
        { must_know := (worth0 (itemsOf pool)).take 2
          worth_a_look := (worth0 (itemsOf pool)).drop 2
          quick_hits := quick0 (itemsOf pool) } := by
      rw [build_digest, assembleItems, if_pos hcond]
    refine ⟨by rw [heq], by rw [heq], ?_⟩
    rw [heq]
    intro h
    rcases List.take_eq_nil_iff.mp h with h2 | hnil
    · exact absurd h2 (by norm_num)
    · exact hw hnil
  · intro hmk hw
    have hcond : ¬ (must_know0 (itemsOf pool) = [] ∧ worth0 (itemsOf pool) ≠ []) := by
      intro h
      exact h.2 hw
    have heq : build_digest pool =
        { must_know := must_know0 (itemsOf pool)
          worth_a_look := worth0 (itemsOf pool)
          quick_hits := quick0 (itemsOf pool) } := by
      rw [build_digest, assembleItems, if_neg hcond]
    exact ⟨by rw [heq]; exact hmk, by rw [heq]; exact hw⟩

/-- C6 witness: on a pool with two non-must-read items scoring 40 and 35
(high threshold 60, mid threshold 30), the critical candidates are empty,
the notable tier holds both items, and the fallback promotes the top 2 into
a non-empty critical tier, emptying notable. -/
theorem C6_fallback_witness :
    (build_digest [mkSummary 40 false, mkSummary 35 false]).must_know =
        (worth0 (itemsOf [mkSummary 40 false, mkSummary 35 false])).take 2 ∧
      (build_digest [mkSummary 40 false, mkSummary 35 false]).worth_a_look =
        (worth0 (itemsOf [mkSummary 40 false, mkSummary 35 false])).drop 2 ∧
      (build_digest [mkSummary 40 false, mkSummary 35 false]).must_know ≠ [] :=
  (C6_fallback [mkSummary 40 false, mkSummary 35 false]).1
    (by norm_num [must_know0, must_know_cands, itemsOf, normalizeSummary,
      extractItem, high_threshold, max_score, sortItems, insertDesc,
      criticalPred, mkSummary, mkItem])
    (by
      norm_num [worth0, worth_cands, itemsOf, normalizeSummary,
        extractItem, high_threshold, mid_threshold, max_score, sortItems,
        insertDesc, notablePred, mkSummary, mkItem, List.filterMap_cons]
      exact List.cons_ne_nil _ _)

/-- C7: within each output tier, scores are non-increasing by position, and
the items of any one score value appear in their input order (the order of
the normalized items list, before sorting): no secondary key reorders ties. -/
theorem C7_tier_order_stable (pool : List Summary) :
    ∀ t ∈ [(build_digest pool).must_know, (build_digest pool).worth_a_look,
        (build_digest pool).quick_hits],
      t.Pairwise scoreDesc ∧
        ∀ s : Int,
          List.Sublist (t.filter (fun i => decide (i.relevance_score = s)))
            ((itemsOf pool).filter (fun i => decide (i.relevance_score = s))) := by
  intro t ht
  rcases List.mem_cons.mp ht with rfl | ht
  · rcases must_know_tier_sublist (itemsOf pool) with h | h
    · exact cand_tier_props h
    · exact cand_tier_props h
  rcases List.mem_cons.mp ht with rfl | ht
  · exact cand_tier_props (worth_tier_sublist (itemsOf pool))
  rcases List.mem_cons.mp ht with rfl | ht
  · exact cand_tier_props (quick_tier_sublist (itemsOf pool))
  · exact absurd ht (List.not_mem_nil t)

/-- C7 witness: on the two-item fallback pool, the critical tier is sorted
by non-increasing score and its score-40 items appear in input order. -/
theorem C7_tier_order_stable_witness :
    ((build_digest [mkSummary 40 false, mkSummary 35 false]).must_know).Pairwise
        scoreDesc ∧
      List.Sublist
        (((build_digest [mkSummary 40 false, mkSummary 35 false]).must_know).filter
          (fun i => decide (i.relevance_score = 40)))
        ((itemsOf [mkSummary 40 false, mkSummary 35 false]).filter
          (fun i => decide (i.relevance_score = 40))) := by
  have h := C7_tier_order_stable [mkSummary 40 false, mkSummary 35 false]
    ((build_digest [mkSummary 40 false, mkSummary 35 false]).must_know)
    (List.mem_cons_self _ _)
  exact ⟨h.1, h.2 40⟩

/-- C8: the output tiers respect the caps 3/7/10 (also after the fallback),
and each truncation keeps the highest-scoring candidates: every candidate
dropped by a `[:n]` cut scores at most every candidate kept by it. -/
theorem C8_caps (pool : List Summary) :
    (build_digest pool).must_know.length ≤ 3 ∧
      (build_digest pool).worth_a_look.length ≤ 7 ∧
      (build_digest pool).quick_hits.length ≤ 10 ∧
      (∀ y ∈ must_know0 (itemsOf pool),
        ∀ x ∈ (must_know_cands (itemsOf pool)).drop 3,
          x.relevance_score ≤ y.relevance_score) ∧
      (∀ y ∈ worth0 (itemsOf pool),
        ∀ x ∈ (worth_cands (itemsOf pool)).drop 7,
          x.relevance_score ≤ y.relevance_score) ∧
      (∀ y ∈ quick0 (itemsOf pool),
        ∀ x ∈ (quick_cands (itemsOf pool)).drop 10,
          x.relevance_score ≤ y.relevance_score) := by
  have hmkp : (must_know_cands (itemsOf pool)).Pairwise scoreDesc :=
    (sortItems_pairwise (itemsOf pool)).filter _
  have hwp : (worth_cands (itemsOf pool)).Pairwise scoreDesc :=
    (sortItems_pairwise (itemsOf pool)).filter _
  have hqp : (quick_cands (itemsOf pool)).Pairwise scoreDesc :=
    (sortItems_pairwise (itemsOf pool)).filter _
  refine ⟨?_, ?_, ?_, take_dominates hmkp 3, take_dominates hwp 7,
    take_dominates hqp 10⟩
  · rcases assembleItems_cases (itemsOf pool) with ⟨_, heq⟩ | ⟨_, _, heq⟩
    · rw [build_digest, heq]
      exact List.length_take_le 3 _
    · rw [build_digest, heq]
      exact le_trans (List.length_take_le 2 _) (by norm_num)
  · rcases assembleItems_cases (itemsOf pool) with ⟨_, heq⟩ | ⟨_, _, heq⟩
    · rw [build_digest, heq]
      exact List.length_take_le 7 _
    · rw [build_digest, heq]
      calc ((worth0 (itemsOf pool)).drop 2).length ≤ (worth0 (itemsOf pool)).length :=
          (List.drop_sublist 2 _).length_le
        _ ≤ 7 := List.length_take_le 7 _
  · rcases assembleItems_cases (itemsOf pool) with ⟨_, heq⟩ | ⟨_, _, heq⟩ <;>
      (rw [build_digest, heq]; exact List.length_take_le 10 _)

/-- C8 witness: on a four-item pool of critical candidates, the critical cap
holds and the dropped fourth candidate (score 90) scores at most the kept
first one (score 100). -/
theorem C8_caps_witness :
    (build_digest [mkSummary 100 false, mkSummary 100 false,
        mkSummary 100 false, mkSummary 90 false]).must_know.length ≤ 3 ∧
      (mkItem 90 false).relevance_score ≤ (mkItem 100 false).relevance_score :=
  ⟨(C8_caps [mkSummary 100 false, mkSummary 100 false, mkSummary 100 false,
      mkSummary 90 false]).1,
    (C8_caps [mkSummary 100 false, mkSummary 100 false, mkSummary 100 false,
        mkSummary 90 false]).2.2.2.1
      (mkItem 100 false)
      (by norm_num [must_know0, must_know_cands, itemsOf, normalizeSummary,
        extractItem, high_threshold, max_score, sortItems, insertDesc,
        criticalPred, mkSummary, mkItem, List.filterMap_cons])
      (mkItem 90 false)
      (by norm_num [must_know_cands, itemsOf, normalizeSummary,
        extractItem, high_threshold, max_score, sortItems, insertDesc,
        criticalPred, mkSummary, mkItem, List.filterMap_cons])⟩

/-- C9: an empty pool yields the all-empty digest, as does any pool whose
rows all lack an item record (every row is skipped at lines 72-78). -/
theorem C9_empty_pool :
    build_digest [] =
        { must_know := [], worth_a_look := [], quick_hits := [] } ∧
      ∀ pool : List Summary, (∀ s ∈ pool, extractItem s = none) →
        build_digest pool =
          { must_know := [], worth_a_look := [], quick_hits := [] } := by
  have main : ∀ pool : List Summary, (∀ s ∈ pool, extractItem s = none) →
      build_digest pool =
        { must_know := [], worth_a_look := [], quick_hits := [] } := by
    intro pool h
    have hitems : itemsOf pool = [] := by
      rw [itemsOf, List.filterMap_eq_nil_iff]
      intro s hs
      rw [normalizeSummary, h s hs]
    rw [build_digest, hitems]
    rfl
  exact ⟨main [] (fun s hs => absurd hs (List.not_mem_nil s)), main⟩

/-- C9 witness: a pool of one row with no item record yields the all-empty
digest. -/
theorem C9_empty_pool_witness :
    build_digest [noItemSummary] =
      { must_know := [], worth_a_look := [], quick_hits := [] } :=
  C9_empty_pool.2 [noItemSummary]
    (by
      intro s hs
      rcases List.mem_singleton.mp hs with rfl
      rfl)

/-- C1 (violation): on the pool with a single must-read item of score 10
(below the mid threshold 30), the item appears in BOTH the critical tier
(line 97 admits every must-read item) and the minor tier (the line-99 filter
`0 < score < mid_threshold`, unlike line 98, does not exclude must-read
items): the tiers are not pairwise disjoint. -/
theorem C1_partition_violation :
    build_digest [mkSummary 10 true] =
        { must_know := [mkItem 10 true], worth_a_look := [],
          quick_hits := [mkItem 10 true] } ∧
      mkItem 10 true ∈ (build_digest [mkSummary 10 true]).must_know ∧
      mkItem 10 true ∈ (build_digest [mkSummary 10 true]).quick_hits := by
  have h : build_digest [mkSummary 10 true] =
      { must_know := [mkItem 10 true], worth_a_look := [],
        quick_hits := [mkItem 10 true] } := by
    norm_num [build_digest, assembleItems, must_know0, worth0, quick0,
      must_know_cands, worth_cands, quick_cands, high_threshold, mid_threshold,
      max_score, sortItems, insertDesc, itemsOf, normalizeSummary, extractItem,
      criticalPred, notablePred, minorPred, mkSummary, mkItem,
      List.filterMap_cons]
  refine ⟨h, ?_, ?_⟩ <;> rw [h] <;> exact List.mem_singleton.mpr rfl

/-- C2 (counterexample): `build_digest` does not clamp out-of-range scores.
On the pool with scores 1000 and 90, the unclamped run puts the score-90
item in the minor tier (thresholds 700/400), while the clamped pool
(scores 100 and 90, thresholds 70/40) puts both items in the critical tier:
the outputs differ. -/
theorem C2_no_clamping :
    build_digest [mkSummary 1000 false, mkSummary 90 false] ≠
      build_digest
        ([mkSummary 1000 false, mkSummary 90 false].map specClampSummary) := by
  have h1 : build_digest [mkSummary 1000 false, mkSummary 90 false] =
      { must_know := [mkItem 1000 false], worth_a_look := [],
        quick_hits := [mkItem 90 false] } := by
    norm_num [build_digest, assembleItems, must_know0, worth0, quick0,
      must_know_cands, worth_cands, quick_cands, high_threshold, mid_threshold,
      max_score, sortItems, insertDesc, itemsOf, normalizeSummary, extractItem,
      criticalPred, notablePred, minorPred, mkSummary, mkItem,
      List.filterMap_cons]
  have h2 : build_digest
      ([mkSummary 1000 false, mkSummary 90 false].map specClampSummary) =
      { must_know := [mkItem 100 false, mkItem 90 false], worth_a_look := [],
        quick_hits := [] } := by
    norm_num [build_digest, assembleItems, must_know0, worth0, quick0,
      must_know_cands, worth_cands, quick_cands, high_threshold, mid_threshold,
      max_score, sortItems, insertDesc, itemsOf, normalizeSummary, extractItem,
      criticalPred, notablePred, minorPred, mkSummary, mkItem,
      specClampSummary, List.filterMap_cons]
  rw [h1, h2]
  intro h
  have := congrArg (fun c => c.must_know.length) h
  norm_num at this

/-- Replacing a missing score by an explicit 0 leaves the normalized item
unchanged. -/
theorem normalizeSummary_fillMissingScore (s : Summary) :
    normalizeSummary (fillMissingScore s) = normalizeSummary s := by
  rcases s with ⟨su, wh, cat, rs, mr, it⟩
  rcases rs with _ | v <;>
    rcases it with _ | (r | (_ | ⟨r, rl⟩)) <;> rfl

/-- C2 (amended): `build_digest` treats a missing `relevance_score` as 0
(replacing every missing score by an explicit 0 leaves the output
unchanged), but it performs no clamping: out-of-range scores enter threshold
derivation and partitioning as they are. -/
theorem C2_missing_score_defaults_zero (pool : List Summary) :
    build_digest (pool.map fillMissingScore) = build_digest pool := by
  rw [build_digest, build_digest, itemsOf, itemsOf, List.filterMap_map]
  have : normalizeSummary ∘ fillMissingScore = normalizeSummary := by
    funext s
    exact normalizeSummary_fillMissingScore s
  rw [this]

/-- C2 witness: applying the amended theorem to a concrete one-row pool with
a missing score. -/
theorem C2_missing_score_defaults_zero_witness :
    build_digest ([noItemSummary].map fillMissingScore) =
      build_digest [noItemSummary] :=
  C2_missing_score_defaults_zero [noItemSummary]

end AcrDigest
